import Mathlib

/-!
# Shopify → Bitrix webhook reconciler: a shallow embedding

This file embeds the order-to-deal reconciliation logic of the repository in
Lean 4 and proves the frozen claims about it.

Source layout:
* `pages/api/webhook/refund/crt.js` (after its re-export header, the shared
  Shopify webhook module): `handleOrderCreated`, `handleOrderUpdated`, `handler`.
* `src/lib/adapters/shopify/index.js`: the `ShopifyAdapter` class, whose
  `transformToBitrix` method holds the discount and customer-name mapping.

The CRM gateway (`callBitrix`), the deal field mapper
(`mapShopifyOrderToBitrixDeal` from `src/lib/bitrix/orderMapper.js`), the
contact upsert and the stage/status policy functions live outside the provided
sources.  The gateway is modelled as an environment of per-call-site responses
(`Except Unit _`: `.error` models a thrown exception); the mapper and policy
are parameters of the embedded handlers, plus one definition modelled from the
spec where a claim needs the mapper's concrete behaviour.  Each embedded
handler returns the ordered trace of CRM calls it issued together with its
result (`Except Unit String`, mirroring a thrown error vs. a returned deal id).

JS-specific semantics (string truthiness, `parseFloat`, `Number`, `x || 0`,
`?.toLowerCase()`) are modelled explicitly by the `js`-prefixed helpers below;
exponent/hex numeric notations, which never occur in monetary webhook data,
are not modelled.
-/

namespace ShopifyBitrix

/-- A discount code entry of a Shopify order (`discount_codes[i]`);
`amount` is a decimal-as-string per the webhook schema. -/
structure DiscountCode where
  code : Option String
  amount : Option String
  deriving DecidableEq, Repr

/-- The customer object of a Shopify order. -/
structure CustomerInfo where
  first_name : Option String
  last_name : Option String
  email : Option String
  deriving DecidableEq, Repr

/-- The billing address object of a Shopify order (name fields only are
read by the code under verification). -/
structure AddressInfo where
  first_name : Option String
  last_name : Option String
  deriving DecidableEq, Repr

/-- A line item of a Shopify order. -/
structure LineItem where
  id : Option Nat
  title : Option String
  name : Option String
  quantity : Option Nat
  price : Option String
  sku : Option String
  product_id : Option Nat
  deriving DecidableEq, Repr

/-- The `tags` field of a Shopify order as the code receives it: either an
array of strings, a comma-separated string, or absent (`order.tags` falsy). -/
inductive TagsVal where
  | absent
  | str (s : String)
  | arr (l : List String)
  deriving DecidableEq, Repr

/-- A Shopify order payload, restricted to the fields the code under
verification reads.  `id` is the order identifier already stringified
(the code always works with `String(order.id)`); monetary totals are
decimal-as-string as delivered by the webhook. -/
structure Order where
  id : String
  name : Option String
  financial_status : Option String
  tags : TagsVal
  line_items : List LineItem
  discount_codes : Option (List DiscountCode)
  total_discounts : Option String
  total_price : Option String
  total_tax : Option String
  shipping_price : Option String
  customer : Option CustomerInfo
  billing_address : Option AddressInfo
  deriving DecidableEq, Repr

/-- Value of a decimal digit list read most-significant first. -/
def digitsToNat (ds : List Char) : Nat :=
  ds.foldl (fun a c => a * 10 + (c.toNat - 48)) 0

/-- JS `parseFloat` on a decimal numeral: skip leading whitespace, optional
sign, then the longest `digits[.digits]` prefix; `none` models `NaN` (no
digits parsed at all).  Exponent notation is not modelled. -/
def parseFloatQ (s : String) : Option ℚ :=
  let cs := s.toList.dropWhile Char.isWhitespace
  let sgn : ℚ := match cs with
    | '-' :: _ => -1
    | _ => 1
  let cs1 := match cs with
    | '-' :: r => r
    | '+' :: r => r
    | _ => cs
  let intDigits := cs1.takeWhile Char.isDigit
  let afterInt := cs1.dropWhile Char.isDigit
  let fracDigits := match afterInt with
    | '.' :: r => r.takeWhile Char.isDigit
    | _ => ([] : List Char)
  if intDigits.isEmpty && fracDigits.isEmpty then none
  else some (sgn * ((digitsToNat intDigits : ℚ) +
    (digitsToNat fracDigits : ℚ) / (10 : ℚ) ^ fracDigits.length))

/-- The `parseNumber` helper of `transformToBitrix`
(src/lib/adapters/shopify/index.js lines 214-218): `null`/`undefined`/`''`
map to `null`; otherwise a string is parsed with `parseFloat`, `NaN`
normalized to `null`. -/
def parseNumber (v : Option String) : Option ℚ :=
  match v with
  | none => none
  | some s => if s = "" then none else parseFloatQ s

/-- JS `Number(s)` on a string: the whole (whitespace-trimmed) string must be
a decimal numeral; the empty/blank string converts to `0`; `none` models
`NaN`.  Exponent/hex notations are not modelled. -/
def jsNumber (s : String) : Option ℚ :=
  let t := s.trim
  if t = "" then some 0
  else
    let cs := t.toList
    let sgn : ℚ := match cs with
      | '-' :: _ => -1
      | _ => 1
    let cs1 := match cs with
      | '-' :: r => r
      | '+' :: r => r
      | _ => cs
    let intDigits := cs1.takeWhile Char.isDigit
    let afterInt := cs1.dropWhile Char.isDigit
    let fracDigits := match afterInt with
      | '.' :: r => r.takeWhile Char.isDigit
      | _ => ([] : List Char)
    let rest := match afterInt with
      | '.' :: r => r.dropWhile Char.isDigit
      | r => r
    if intDigits.isEmpty && fracDigits.isEmpty then none
    else if !rest.isEmpty then none
    else some (sgn * ((digitsToNat intDigits : ℚ) +
      (digitsToNat fracDigits : ℚ) / (10 : ℚ) ^ fracDigits.length))

/-- ASCII lowercase of one character, by explicit table (JS `toLowerCase`
restricted to the ASCII letters, the only characters occurring in financial
statuses and pre-order tags). -/
def jsLowerChar (c : Char) : Char :=
  match c with
  | 'A' => 'a' | 'B' => 'b' | 'C' => 'c' | 'D' => 'd' | 'E' => 'e' | 'F' => 'f'
  | 'G' => 'g' | 'H' => 'h' | 'I' => 'i' | 'J' => 'j' | 'K' => 'k' | 'L' => 'l'
  | 'M' => 'm' | 'N' => 'n' | 'O' => 'o' | 'P' => 'p' | 'Q' => 'q' | 'R' => 'r'
  | 'S' => 's' | 'T' => 't' | 'U' => 'u' | 'V' => 'v' | 'W' => 'w' | 'X' => 'x'
  | 'Y' => 'y' | 'Z' => 'z'
  | c => c

/-- JS `s.toLowerCase()` for ASCII data, character-wise. -/
def jsToLower (s : String) : String :=
  String.mk (s.data.map jsLowerChar)

/-- JS truthiness of a possibly-absent string value: `undefined`, `null` and
`''` are falsy, every other string is truthy. -/
def truthyStr (v : Option String) : Bool :=
  match v with
  | none => false
  | some s => !(s = "")

/-- The `getValue` helper of `transformToBitrix`
(src/lib/adapters/shopify/index.js lines 206-211), identity transform case:
`undefined`/`null`/`''` map to `null`, anything else is passed through. -/
def getValue (v : Option String) : Option String :=
  match v with
  | none => none
  | some s => if s = "" then none else some s

/-- JS `String(x)` on a possibly-absent string field: an absent value
stringifies to the literal text `"undefined"`, never equal to an order
identifier. -/
def jsStringOf (v : Option String) : String :=
  v.getD "undefined"

/-- A deal record as returned by the CRM list call, restricted to the
selected columns the code reads (`ID`, `STAGE_ID`, `CATEGORY_ID`,
`DATE_CREATE`, `UF_SHOPIFY_ORDER_ID`).  `DATE_CREATE` is the creation
timestamp, modelled as a number so that recency ordering is expressible. -/
structure DealRec where
  ID : String
  STAGE_ID : Option String
  CATEGORY_ID : Option String
  DATE_CREATE : Nat
  UF_SHOPIFY_ORDER_ID : Option String
  deriving DecidableEq, Repr

/-- `Number(deal.CATEGORY_ID) || 2` (crt.js lines 311/324/330): an absent or
non-numeric stored category (`NaN`) and a stored `0` (falsy) both fall back
to `2`. -/
def currentCategoryOf (d : DealRec) : ℚ :=
  match d.CATEGORY_ID with
  | none => 2
  | some s =>
    match jsNumber s with
    | none => 2
    | some q => if q = 0 then 2 else q

/-- The strict client-side exact-match filter of `handleOrderUpdated`
(crt.js lines 169-184, repeated at 204-219): a falsy stored join key never
matches; otherwise exact string equality, else numeric equality of both
sides under `Number` (both must parse), else whitespace-trimmed string
equality. -/
def dealMatchesOrder (shopifyOrderId : String) (d : DealRec) : Bool :=
  match d.UF_SHOPIFY_ORDER_ID with
  | none => false
  | some v =>
    if v = "" then false
    else if v = shopifyOrderId then true
    else
      let numOk : Bool := match jsNumber v, jsNumber shopifyOrderId with
        | some a, some b => decide (a = b)
        | _, _ => false
      if numOk then true else v.trim = shopifyOrderId.trim

/-- The fixed pre-order tag set (crt.js lines 256/337). -/
def preorderTags : List String := ["pre-order", "preorder-product-added"]

/-- `Array.isArray(order.tags) ? order.tags : (order.tags ?
String(order.tags).split(',').map(t => t.trim()) : [])`
(crt.js lines 252-254/333-335). -/
def orderTagsList (t : TagsVal) : List String :=
  match t with
  | .arr l => l
  | .str s => if s = "" then [] else (s.splitOn ",").map String.trim
  | .absent => []

/-- `orderTags.some(tag => preorderTags.some(p => tag.toLowerCase() ===
p.toLowerCase()))` (crt.js lines 257-259/338-340). -/
def hasPreorderTag (t : TagsVal) : Bool :=
  (orderTagsList t).any (fun tag =>
    preorderTags.any (fun p => jsToLower tag = jsToLower p))

/-- The category constants of `BITRIX_CONFIG`
(src/lib/bitrix/config.js, not part of the sources): kept abstract as a
parameter; the source comment documents pre-order → cat 8, stock → cat 2. -/
structure BitrixConfig where
  CATEGORY_PREORDER : ℚ
  CATEGORY_STOCK : ℚ

/-- `hasPreorderTag ? BITRIX_CONFIG.CATEGORY_PREORDER :
BITRIX_CONFIG.CATEGORY_STOCK` (crt.js lines 261/342). -/
def computeCategoryId (cfg : BitrixConfig) (o : Order) : ℚ :=
  if hasPreorderTag o.tags then cfg.CATEGORY_PREORDER else cfg.CATEGORY_STOCK

/-- A product row payload passed to `crm.deal.productrows.set`; the handlers
never inspect row contents, they pass the mapper's rows through. -/
structure ProductRow where
  PRODUCT_ID : Option Nat
  PRICE : Option ℚ
  QUANTITY : Option Nat
  deriving DecidableEq, Repr

/-- The deal-field object produced by the mapper and sent to
`crm.deal.add`, restricted to the fields the handlers read or overwrite.
`none` on `CATEGORY_ID`/`UF_SHOPIFY_ORDER_ID`/`CONTACT_ID` means the key is
absent or null. -/
structure DealFieldsObj where
  OPPORTUNITY : Option ℚ
  UF_SHOPIFY_TOTAL_DISCOUNT : Option ℚ
  UF_SHOPIFY_TOTAL_TAX : Option ℚ
  UF_SHOPIFY_SHIPPING_PRICE : Option ℚ
  UF_CRM_1739183268662 : Option String
  UF_CRM_1739183302609 : Option String
  CATEGORY_ID : Option ℚ
  UF_SHOPIFY_ORDER_ID : Option String
  CONTACT_ID : Option Nat
  deriving DecidableEq, Repr

/-- The field object `handleOrderUpdated` sends to `crm.deal.update`
(crt.js lines 347-395).  The four monetary keys are always present
(`OPPORTUNITY` may carry null); `CATEGORY_ID` and `STAGE_ID` use `none` for
"key not in the object"; the payment-status key is always assigned before
the call, the order-type/delivery-method keys only conditionally. -/
structure UpdateFields where
  OPPORTUNITY : Option ℚ
  UF_SHOPIFY_TOTAL_DISCOUNT : ℚ
  UF_SHOPIFY_TOTAL_TAX : ℚ
  UF_SHOPIFY_SHIPPING_PRICE : ℚ
  CATEGORY_ID : Option ℚ
  STAGE_ID : Option String
  UF_CRM_1739183959976 : Option String
  UF_CRM_1739183268662 : Option String
  UF_CRM_1739183302609 : Option String
  deriving DecidableEq, Repr

/-- The deal field mapper signature: `mapShopifyOrderToBitrixDeal` returns
`{ dealFields, productRows }` (a pure function per the spec); its source
file is not part of this repository snapshot, so the handlers are
parameterized over it. -/
def DealMapper : Type := Order → DealFieldsObj × List ProductRow

/-- The stage/status policy functions of `src/lib/bitrix/config.js`
(`financialStatusToStageId(financialStatus, categoryId, currentStageId)`
and `financialStatusToPaymentStatus(financialStatus)`), whose source is not
part of this repository snapshot; kept abstract as parameters. -/
structure StagePolicy where
  financialStatusToStageId : Option String → ℚ → Option String → String
  financialStatusToPaymentStatus : Option String → String

/-- One CRM gateway call as issued by the handlers, in issue order:
`crm.deal.list` (with the join-key filter value, or `none` for the
unfiltered recent-deals scan), the contact upsert, `crm.deal.add`,
`crm.deal.update`, `crm.deal.productrows.set`. -/
inductive CrmCall where
  | list (filterOrderId : Option String)
  | contactUpsert
  | add (fields : DealFieldsObj)
  | update (id : String) (fields : UpdateFields)
  | setRows (id : String) (rows : List ProductRow)
  deriving DecidableEq, Repr

/-- Whether a call is a `crm.deal.add`. -/
def CrmCall.isAdd : CrmCall → Bool
  | .add _ => true
  | _ => false

/-- Whether a call is a `crm.deal.update`. -/
def CrmCall.isUpdate : CrmCall → Bool
  | .update _ _ => true
  | _ => false

/-- Whether a call mutates the deal with the given CRM identifier
(field update or product-row replacement). -/
def CrmCall.targetsDeal (c : CrmCall) (dealId : String) : Bool :=
  match c with
  | .update i _ => i = dealId
  | .setRows i _ => i = dealId
  | _ => false

/-- The CRM responses consumed by one `handleOrderCreated` run, one field
per call site.  `.error` models a thrown exception; for list/add calls an
`.ok` carries the `result` member (`none` when falsy/absent). -/
structure CreateEnv where
  listResp : Except Unit (Option (List DealRec))
  contactResp : Except Unit (Option Nat)
  addResp : Except Unit (Option String)
  rowsResp : Except Unit Unit

/-- The CRM responses consumed by one `handleOrderUpdated` run, one field
per call site: the filtered list call, the unfiltered recent-deals scan,
the contact upsert and deal add of the create branch, the product-rows set
on a newly created deal, the field update, and the product-rows set of the
update branch. -/
structure UpdEnv where
  listResp : Except Unit (Option (List DealRec))
  recentResp : Except Unit (Option (List DealRec))
  contactResp : Except Unit (Option Nat)
  addResp : Except Unit (Option String)
  newRowsResp : Except Unit Unit
  updateResp : Except Unit Unit
  rowsResp : Except Unit Unit

/-- `handleOrderCreated` (crt.js lines 32-122).  The duplicate check (lines
47-63) uses `find` with plain `String(...) === shopifyOrderId`; on a hit the
function returns the existing deal id without any further CRM call.  The
list call is not inside a try/catch, so its exception propagates.  The
contact upsert (lines 81-89) is caught; a thrown or null result leaves
`CONTACT_ID` unset.  A falsy `crm.deal.add` result throws (lines 99-102).
The product-rows call (lines 108-119) is issued only for non-empty rows and
its exception is caught, so it never changes the result. -/
def handleOrderCreated (mapper : DealMapper) (o : Order) (env : CreateEnv) :
    List CrmCall × Except Unit String :=
  let shopifyOrderId := o.id
  match env.listResp with
  | .error e => ([.list (some shopifyOrderId)], .error e)
  | .ok r =>
    match (r.getD []).find?
        (fun d => jsStringOf d.UF_SHOPIFY_ORDER_ID = shopifyOrderId) with
    | some exact => ([.list (some shopifyOrderId)], .ok exact.ID)
    | none =>
      let m := mapper o
      let dealFields1 := { m.1 with UF_SHOPIFY_ORDER_ID := some shopifyOrderId }
      let dealFields2 := match env.contactResp with
        | .ok (some cid) => { dealFields1 with CONTACT_ID := some cid }
        | _ => dealFields1
      match env.addResp with
      | .error e =>
        ([.list (some shopifyOrderId), .contactUpsert, .add dealFields2], .error e)
      | .ok none =>
        ([.list (some shopifyOrderId), .contactUpsert, .add dealFields2], .error ())
      | .ok (some dealId) =>
        if 0 < m.2.length then
          ([.list (some shopifyOrderId), .contactUpsert, .add dealFields2,
            .setRows dealId m.2], .ok dealId)
        else
          ([.list (some shopifyOrderId), .contactUpsert, .add dealFields2], .ok dealId)

/-- The strict-filtered result of the primary lookup of `handleOrderUpdated`
(crt.js lines 151-184): a thrown list call is caught, leaving `allDeals`
empty; otherwise `listResp.result || []` filtered by the exact matcher. -/
def primaryDeals (orderId : String) (env : UpdEnv) : List DealRec :=
  match env.listResp with
  | .error _ => []
  | .ok r => (r.getD []).filter (dealMatchesOrder orderId)

/-- The deal set `handleOrderUpdated` resolves to after both search
attempts (crt.js lines 151-235): the primary filtered query, then — only
when it yielded no exact match — an unfiltered recent-deals scan filtered
client-side with the same matcher; a thrown fallback is caught and an empty
fallback result leaves `deals` empty. -/
def resolvedDeals (orderId : String) (env : UpdEnv) : List DealRec :=
  let deals0 := primaryDeals orderId env
  if deals0.isEmpty then
    match env.recentResp with
    | .error _ => deals0
    | .ok r =>
      let found := (r.getD []).filter (dealMatchesOrder orderId)
      if found.isEmpty then deals0 else found
  else deals0

/-- The list-call trace of the lookup phase of `handleOrderUpdated`: the
filtered query is always issued; the unfiltered scan is issued exactly when
the filtered query produced no exact match. -/
def searchCallsOf (orderId : String) (env : UpdEnv) : List CrmCall :=
  if (primaryDeals orderId env).isEmpty then [.list (some orderId), .list none]
  else [.list (some orderId)]

/-- The update-field object built by `handleOrderUpdated`
(crt.js lines 330-395): monetary fields always present with `|| 0`
null-to-zero coercion on discount/tax/shipping; `CATEGORY_ID` only when the
recomputed category differs from the stored one; `STAGE_ID` omitted exactly
when the lowercased financial status is `partially_refunded`, otherwise set
from the stage policy; the payment-status key always assigned; order-type
and delivery-method carried over only when the mapper produced truthy
values. -/
def buildUpdateFields (pol : StagePolicy) (cfg : BitrixConfig) (o : Order)
    (mappedFields : DealFieldsObj) (deal : DealRec) : UpdateFields :=
  let currentCategoryId := currentCategoryOf deal
  let categoryId := computeCategoryId cfg o
  { OPPORTUNITY := mappedFields.OPPORTUNITY
    UF_SHOPIFY_TOTAL_DISCOUNT := mappedFields.UF_SHOPIFY_TOTAL_DISCOUNT.getD 0
    UF_SHOPIFY_TOTAL_TAX := mappedFields.UF_SHOPIFY_TOTAL_TAX.getD 0
    UF_SHOPIFY_SHIPPING_PRICE := mappedFields.UF_SHOPIFY_SHIPPING_PRICE.getD 0
    CATEGORY_ID := if categoryId ≠ currentCategoryId then some categoryId else none
    STAGE_ID :=
      if (o.financial_status.map jsToLower).getD "" = "partially_refunded" then none
      else some (pol.financialStatusToStageId o.financial_status categoryId deal.STAGE_ID)
    UF_CRM_1739183959976 := some (pol.financialStatusToPaymentStatus o.financial_status)
    UF_CRM_1739183268662 :=
      if truthyStr mappedFields.UF_CRM_1739183268662
      then mappedFields.UF_CRM_1739183268662 else none
    UF_CRM_1739183302609 :=
      if truthyStr mappedFields.UF_CRM_1739183302609
      then mappedFields.UF_CRM_1739183302609 else none }

/-- The create-new-deal branch of `handleOrderUpdated`
(crt.js lines 247-305): category from tags, mapper fields with forced
`CATEGORY_ID`/`UF_SHOPIFY_ORDER_ID`, caught contact upsert, hard failure on
a falsy add result; note that the `crm.deal.productrows.set` call on the
newly created deal (lines 297-303) is NOT inside a try/catch, so its
exception propagates. -/
def createViaUpdate (mapper : DealMapper) (cfg : BitrixConfig)
    (o : Order) (env : UpdEnv) (searchCalls : List CrmCall) :
    List CrmCall × Except Unit String :=
  let categoryId := computeCategoryId cfg o
  let m := mapper o
  let dealFields1 :=
    { m.1 with CATEGORY_ID := some categoryId, UF_SHOPIFY_ORDER_ID := some o.id }
  let dealFields2 := match env.contactResp with
    | .ok (some cid) => { dealFields1 with CONTACT_ID := some cid }
    | _ => dealFields1
  match env.addResp with
  | .error e => (searchCalls ++ [.contactUpsert, .add dealFields2], .error e)
  | .ok none => (searchCalls ++ [.contactUpsert, .add dealFields2], .error ())
  | .ok (some newId) =>
    if 0 < m.2.length then
      match env.newRowsResp with
      | .error e =>
        (searchCalls ++ [.contactUpsert, .add dealFields2, .setRows newId m.2], .error e)
      | .ok _ =>
        (searchCalls ++ [.contactUpsert, .add dealFields2, .setRows newId m.2], .ok newId)
    else (searchCalls ++ [.contactUpsert, .add dealFields2], .ok newId)

/-- The update-existing-deal tail of `handleOrderUpdated`
(crt.js lines 329-423): a single field update whose exception propagates,
then — on update success — an unconditional `crm.deal.productrows.set` with
the full mapped row collection (`productRows || []`, issued even when
empty), whose exception is caught. -/
def updateExisting (mapper : DealMapper) (cfg : BitrixConfig) (pol : StagePolicy)
    (o : Order) (env : UpdEnv) (searchCalls : List CrmCall) (deal : DealRec) :
    List CrmCall × Except Unit String :=
  let fields := buildUpdateFields pol cfg o (mapper o).1 deal
  match env.updateResp with
  | .error e => (searchCalls ++ [.update deal.ID fields], .error e)
  | .ok _ =>
    (searchCalls ++ [.update deal.ID fields, .setRows deal.ID (mapper o).2],
      .ok deal.ID)

/-- `handleOrderUpdated` (crt.js lines 132-424): resolve the deal set via
the two-phase lookup; zero matches → create branch; one or more matches →
update `deals[0]` (for multiple matches the list was requested sorted by
`DATE_CREATE` descending, so this is the most recent; crt.js lines
315-327), leaving the remaining matches untouched. -/
def handleOrderUpdated (mapper : DealMapper) (cfg : BitrixConfig) (pol : StagePolicy)
    (o : Order) (env : UpdEnv) : List CrmCall × Except Unit String :=
  match resolvedDeals o.id env with
  | [] => createViaUpdate mapper cfg o env (searchCallsOf o.id env)
  | deal :: _ => updateExisting mapper cfg pol o env (searchCallsOf o.id env) deal

/-- The body of an HTTP response produced by the webhook handler:
`res.end(text)` sends a plain-text body; `res.json(...)` a JSON body;
`empty` is an empty body (which the handler never actually produces on the
method-rejection path). -/
inductive HttpBody where
  | empty
  | text (s : String)
  | jsonSuccess (topic : Option String)
  | jsonError
  deriving DecidableEq, Repr

/-- An HTTP response: status code and body. -/
structure HttpResponse where
  status : Nat
  body : HttpBody
  deriving DecidableEq, Repr

/-- An inbound webhook request: transport method, the `x-shopify-topic`
header, and the parsed JSON body (an order payload). -/
structure HttpRequest where
  method : String
  topic : Option String
  body : Order
  deriving Repr

/-- The CRM environment for a full webhook request: the responses for
whichever reconciler entry the topic routes to. -/
structure WebhookEnv where
  createEnv : CreateEnv
  updEnv : UpdEnv

/-- Translation of a reconciler outcome to the HTTP response
(crt.js lines 553-563): success → 200 JSON `{success, requestId, topic}`;
a caught exception → 500 JSON error object. -/
def respOf (topic : Option String) (r : Except Unit String) : HttpResponse :=
  match r with
  | .ok _ => { status := 200, body := HttpBody.jsonSuccess topic }
  | .error _ => { status := 500, body := HttpBody.jsonError }

/-- The webhook `handler` (crt.js lines 483-564): a non-POST method is
rejected up front with `res.status(405).end('Method not allowed')` and no
CRM interaction (lines 492-496); otherwise the topic header routes to
`handleOrderCreated` / `handleOrderUpdated`, while `products/update`,
`refunds/create`, unrecognized and missing topics are acknowledged with a
success response and no CRM call.  The in-memory diagnostic event store
(non-blocking, caught) issues no CRM call and is not modelled.  Returns the
response and the CRM call trace. -/
def handler (mapper : DealMapper) (cfg : BitrixConfig) (pol : StagePolicy)
    (req : HttpRequest) (env : WebhookEnv) : HttpResponse × List CrmCall :=
  if req.method ≠ "POST" then
    ({ status := 405, body := HttpBody.text "Method not allowed" }, [])
  else
    match req.topic with
    | some "orders/create" =>
      let r := handleOrderCreated mapper req.body env.createEnv
      (respOf req.topic r.2, r.1)
    | some "orders/updated" =>
      let r := handleOrderUpdated mapper cfg pol req.body env.updEnv
      (respOf req.topic r.2, r.1)
    | t => ({ status := 200, body := HttpBody.jsonSuccess t }, [])

/-- The total-discount computation of `ShopifyAdapter.transformToBitrix`
(src/lib/adapters/shopify/index.js lines 236-245): when a discount-code
list is present and non-empty, sum the parsed per-code amounts (null
amounts count as 0) and normalize an exact-zero sum to null; otherwise fall
back to the aggregate `total_discounts` field when it is truthy. -/
def transformToBitrix_totalDiscount (o : Order) : Option ℚ :=
  match o.discount_codes with
  | some codes =>
    if 0 < codes.length then
      let s := codes.foldl (fun sum c => sum + ((parseNumber c.amount).getD 0)) (0 : ℚ)
      if s = 0 then none else some s
    else if truthyStr o.total_discounts then parseNumber o.total_discounts else none
  | none =>
    if truthyStr o.total_discounts then parseNumber o.total_discounts else none

/-- The customer-name computation of `ShopifyAdapter.transformToBitrix`
(src/lib/adapters/shopify/index.js lines 266-271): when the customer object
is present, join its first/last name (`getValue(x) || ''`) with a space,
trim, and normalize the empty string to null; when it is absent, do the
same with the billing address; when both are absent, null. -/
def transformToBitrix_customerName (o : Order) : Option String :=
  match o.customer with
  | some c =>
    let j := (((getValue c.first_name).getD "") ++ " "
      ++ ((getValue c.last_name).getD "")).trim
    if j = "" then none else some j
  | none =>
    match o.billing_address with
    | some b =>
      let j := (((getValue b.first_name).getD "") ++ " "
        ++ ((getValue b.last_name).getD "")).trim
      if j = "" then none else some j
    | none => none

/-- The claim-side display-name normalization: the whitespace-trimmed join
of a first and last name, with an empty result normalized to null. -/
def specDisplayName (fn ln : Option String) : Option String :=
  let joined := ((fn.getD "") ++ " " ++ (ln.getD "")).trim
  if joined = "" then none else some joined

/-- Modelled from the spec: the Deal Field Mapper `mapShopifyOrderToBitrixDeal`
(src/lib/bitrix/orderMapper.js) is imported by the webhook handler but its
source file is not part of this repository snapshot.  Per spec §4.1: parse
decimal-string monetary inputs with missing/unparseable mapping to null;
the discount rule is the one of the adapter's `transformToBitrix`; map each
line item to a row carrying product identifier, quantity and parsed unit
price, with zero line items mapping to the empty row collection; always
populate the join-key field from the stringified order identifier. -/
def mapShopifyOrderToBitrixDeal (o : Order) : DealFieldsObj × List ProductRow :=
  let rows := o.line_items.map (fun it =>
    { PRODUCT_ID := it.product_id
      PRICE := parseNumber it.price
      QUANTITY := it.quantity : ProductRow })
  let fields : DealFieldsObj :=
    { OPPORTUNITY := parseNumber o.total_price
      UF_SHOPIFY_TOTAL_DISCOUNT := transformToBitrix_totalDiscount o
      UF_SHOPIFY_TOTAL_TAX := parseNumber o.total_tax
      UF_SHOPIFY_SHIPPING_PRICE := parseNumber o.shipping_price
      UF_CRM_1739183268662 := none
      UF_CRM_1739183302609 := none
      CATEGORY_ID := none
      UF_SHOPIFY_ORDER_ID := some o.id
      CONTACT_ID := none }
  (fields, rows)

/-! ### Concrete inputs used by counterexamples and witnesses -/

/-- A deal-field object with every optional field absent. -/
def exFields : DealFieldsObj :=
  { OPPORTUNITY := none
    UF_SHOPIFY_TOTAL_DISCOUNT := none
    UF_SHOPIFY_TOTAL_TAX := none
    UF_SHOPIFY_SHIPPING_PRICE := none
    UF_CRM_1739183268662 := none
    UF_CRM_1739183302609 := none
    CATEGORY_ID := none
    UF_SHOPIFY_ORDER_ID := none
    CONTACT_ID := none }

/-- A sample product row. -/
def exRow : ProductRow := { PRODUCT_ID := some 42, PRICE := some 10, QUANTITY := some 1 }

/-- A sample mapper producing one product row. -/
def exMapper : DealMapper := fun _ => (exFields, [exRow])

/-- The documented category constants (pre-order → 8, stock → 2). -/
def exCfg : BitrixConfig := { CATEGORY_PREORDER := 8, CATEGORY_STOCK := 2 }

/-- A sample stage/status policy. -/
def exPol : StagePolicy :=
  { financialStatusToStageId := fun _ _ _ => "C2:LOSE"
    financialStatusToPaymentStatus := fun _ => "58" }

/-- A minimal order with the given identifier and financial status. -/
def exOrder (oid : String) (fs : Option String) : Order :=
  { id := oid
    name := none
    financial_status := fs
    tags := TagsVal.absent
    line_items := []
    discount_codes := none
    total_discounts := none
    total_price := none
    total_tax := none
    shipping_price := none
    customer := none
    billing_address := none }

/-- A deal record with the given CRM id, creation timestamp and stored
join key. -/
def exDeal (i : String) (ts : Nat) (oid : String) : DealRec :=
  { ID := i
    STAGE_ID := some "NEW"
    CATEGORY_ID := some "2"
    DATE_CREATE := ts
    UF_SHOPIFY_ORDER_ID := some oid }

/-- First-delivery environment for the idempotent-create scenario: no
existing deal, create succeeds with id 55. -/
def C1env1 : CreateEnv :=
  { listResp := .ok (some [])
    contactResp := .ok none
    addResp := .ok (some "55")
    rowsResp := .ok () }

/-- Second-delivery environment: the lookup now returns the deal created by
the first delivery. -/
def C1env2 : CreateEnv :=
  { listResp := .ok (some [exDeal "55" 1 "1001"])
    contactResp := .ok none
    addResp := .ok (some "999")
    rowsResp := .ok () }

end ShopifyBitrix

namespace ShopifyBitrix

/-! ### Claims -/

/-- Helper: when the lookup resolves to a non-empty deal list, the update
branch always issues the field update against the head deal, carrying the
fields built by `buildUpdateFields`. -/
lemma update_mem_handleOrderUpdated (mapper : DealMapper) (cfg : BitrixConfig)
    (pol : StagePolicy) (o : Order) (env : UpdEnv) (d0 : DealRec) (rest : List DealRec)
    (hres : resolvedDeals o.id env = d0 :: rest) :
    CrmCall.update d0.ID (buildUpdateFields pol cfg o (mapper o).1 d0) ∈
      (handleOrderUpdated mapper cfg pol o env).1 := by
  simp only [handleOrderUpdated, hres, updateExisting]
  cases h : env.updateResp <;> simp [h]

/-- Helper: when the lookup resolves to a non-empty deal list and the field
update succeeds, the update branch issues the product-rows replacement with
the full mapped row collection against the head deal. -/
lemma setRows_mem_handleOrderUpdated (mapper : DealMapper) (cfg : BitrixConfig)
    (pol : StagePolicy) (o : Order) (env : UpdEnv) (d0 : DealRec) (rest : List DealRec)
    (hres : resolvedDeals o.id env = d0 :: rest)
    (hupd : env.updateResp = .ok ()) :
    CrmCall.setRows d0.ID (mapper o).2 ∈ (handleOrderUpdated mapper cfg pol o env).1 := by
  simp only [handleOrderUpdated, hres, updateExisting, hupd]
  simp

/-- C1 (counterexample): delivering the same `orders/create` payload twice,
the first delivery issues exactly one `crm.deal.add`; but the second
delivery, after finding the exact-match deal, issues NO `crm.deal.update`
(and no `crm.deal.add`) — it skips and returns the existing deal id — so
the claim that it "performs an update rather than a second create" is
false. -/
theorem C1_counterexample :
    ((handleOrderCreated exMapper (exOrder "1001" (some "paid")) C1env1).1.countP
      (fun c => c.isAdd)) = 1 ∧
    ((handleOrderCreated exMapper (exOrder "1001" (some "paid")) C1env2).1.any
      (fun c => c.isUpdate)) = false ∧
    ((handleOrderCreated exMapper (exOrder "1001" (some "paid")) C1env2).1.any
      (fun c => c.isAdd)) = false ∧
    (handleOrderCreated exMapper (exOrder "1001" (some "paid")) C1env2).2 =
      Except.ok "55" := by
  refine ⟨by decide, by decide, by decide, rfl⟩

/-- C1 (amended): for every order, delivering the same `orders/create`
payload twice (with the lookup step succeeding) results in exactly one Deal
created by the first delivery; the second delivery's `handleOrderCreated`
finds the existing exact-match deal by join key and skips creation — it
issues no second create and no update mutation, returning the existing
deal's identifier. -/
theorem C1_amended (mapper : DealMapper) (o : Order) (env1 env2 : CreateEnv)
    (l1 l2 : List DealRec) (d : DealRec) (newId : String)
    (h1 : env1.listResp = .ok (some l1))
    (h1n : l1.find? (fun d => jsStringOf d.UF_SHOPIFY_ORDER_ID = o.id) = none)
    (h1a : env1.addResp = .ok (some newId))
    (h2 : env2.listResp = .ok (some l2))
    (h2f : l2.find? (fun d => jsStringOf d.UF_SHOPIFY_ORDER_ID = o.id) = some d) :
    ((handleOrderCreated mapper o env1).1.countP (fun c => c.isAdd)) = 1 ∧
    (handleOrderCreated mapper o env2).1 = [CrmCall.list (some o.id)] ∧
    (handleOrderCreated mapper o env2).2 = Except.ok d.ID := by
  refine ⟨?_, ?_, ?_⟩
  · simp only [handleOrderCreated, h1, h1n, h1a, Option.getD]
    split
    · simp [List.countP_cons, CrmCall.isAdd]
    · simp [List.countP_cons, CrmCall.isAdd]
  · simp only [handleOrderCreated, h2, h2f, Option.getD]
  · simp only [handleOrderCreated, h2, h2f, Option.getD]

/-- C1 (witness): the amended statement at the concrete two-delivery
scenario. -/
theorem C1_witness :
    ((handleOrderCreated exMapper (exOrder "1001" (some "paid")) C1env1).1.countP
      (fun c => c.isAdd)) = 1 ∧
    (handleOrderCreated exMapper (exOrder "1001" (some "paid")) C1env2).1 =
      [CrmCall.list (some (exOrder "1001" (some "paid")).id)] ∧
    (handleOrderCreated exMapper (exOrder "1001" (some "paid")) C1env2).2 =
      Except.ok (exDeal "55" 1 "1001").ID :=
  C1_amended exMapper (exOrder "1001" (some "paid")) C1env1 C1env2 []
    [exDeal "55" 1 "1001"] (exDeal "55" 1 "1001") "55"
    rfl (by decide) rfl rfl (by decide)

/-- C2: for every `orders/updated` event whose order's financial status is
exactly `partially_refunded` and that resolves to an existing deal, the
update mutation sent to the CRM contains no `STAGE_ID` key, while the
payment-status field and the monetary fields (`OPPORTUNITY`, discount, tax,
shipping) are still included. -/
theorem C2_stagePreservedOnPartRefund (mapper : DealMapper) (cfg : BitrixConfig)
    (pol : StagePolicy) (o : Order) (env : UpdEnv) (d0 : DealRec) (rest : List DealRec)
    (hres : resolvedDeals o.id env = d0 :: rest)
    (hfs : o.financial_status = some "partially_refunded") :
    ∃ f : UpdateFields,
      CrmCall.update d0.ID f ∈ (handleOrderUpdated mapper cfg pol o env).1 ∧
      f.STAGE_ID = none ∧
      f.UF_CRM_1739183959976 =
        some (pol.financialStatusToPaymentStatus o.financial_status) ∧
      f.OPPORTUNITY = (mapper o).1.OPPORTUNITY ∧
      f.UF_SHOPIFY_TOTAL_DISCOUNT = ((mapper o).1.UF_SHOPIFY_TOTAL_DISCOUNT).getD 0 ∧
      f.UF_SHOPIFY_TOTAL_TAX = ((mapper o).1.UF_SHOPIFY_TOTAL_TAX).getD 0 ∧
      f.UF_SHOPIFY_SHIPPING_PRICE = ((mapper o).1.UF_SHOPIFY_SHIPPING_PRICE).getD 0 := by
  refine ⟨buildUpdateFields pol cfg o (mapper o).1 d0,
    update_mem_handleOrderUpdated mapper cfg pol o env d0 rest hres, ?_, rfl, rfl, rfl, rfl, rfl⟩
  simp only [buildUpdateFields, hfs]
  rw [if_pos]
  decide

/-- C2 (witness): the statement at a concrete partially-refunded order
resolving to the single matching deal 70. -/
theorem C2_witness :
    ∃ f : UpdateFields,
      CrmCall.update (exDeal "70" 5 "2002").ID f ∈
        (handleOrderUpdated exMapper exCfg exPol
          (exOrder "2002" (some "partially_refunded"))
          { listResp := .ok (some [exDeal "70" 5 "2002"])
            recentResp := .ok (some [])
            contactResp := .ok none
            addResp := .ok none
            newRowsResp := .ok ()
            updateResp := .ok ()
            rowsResp := .ok () }).1 ∧
      f.STAGE_ID = none ∧
      f.UF_CRM_1739183959976 = some (exPol.financialStatusToPaymentStatus
        (exOrder "2002" (some "partially_refunded")).financial_status) ∧
      f.OPPORTUNITY = (exMapper (exOrder "2002" (some "partially_refunded"))).1.OPPORTUNITY ∧
      f.UF_SHOPIFY_TOTAL_DISCOUNT =
        ((exMapper (exOrder "2002" (some "partially_refunded"))).1.UF_SHOPIFY_TOTAL_DISCOUNT).getD 0 ∧
      f.UF_SHOPIFY_TOTAL_TAX =
        ((exMapper (exOrder "2002" (some "partially_refunded"))).1.UF_SHOPIFY_TOTAL_TAX).getD 0 ∧
      f.UF_SHOPIFY_SHIPPING_PRICE =
        ((exMapper (exOrder "2002" (some "partially_refunded"))).1.UF_SHOPIFY_SHIPPING_PRICE).getD 0 :=
  C2_stagePreservedOnPartRefund exMapper exCfg exPol
    (exOrder "2002" (some "partially_refunded"))
    { listResp := .ok (some [exDeal "70" 5 "2002"])
      recentResp := .ok (some [])
      contactResp := .ok none
      addResp := .ok none
      newRowsResp := .ok ()
      updateResp := .ok ()
      rowsResp := .ok () }
    (exDeal "70" 5 "2002") [] (by decide) rfl

/-- C3: for every `orders/updated` event whose lookup yields more than one
exact-match deal, returned recency-sorted by creation timestamp descending
(and with pairwise distinct CRM identifiers, as CRM-assigned ids are), the
handler issues a field update against the head deal — which has the latest
creation timestamp of all matches — and issues no mutation (no update, no
product-row call) against any of the other matching deals. -/
theorem C3_multiMatchMostRecent (mapper : DealMapper) (cfg : BitrixConfig)
    (pol : StagePolicy) (o : Order) (env : UpdEnv) (d0 : DealRec) (rest : List DealRec)
    (hres : resolvedDeals o.id env = d0 :: rest)
    (hmulti : rest ≠ [])
    (hsorted : (d0 :: rest).Pairwise (fun a b => b.DATE_CREATE ≤ a.DATE_CREATE))
    (hids : ∀ d ∈ rest, d.ID ≠ d0.ID) :
    (∃ f, CrmCall.update d0.ID f ∈ (handleOrderUpdated mapper cfg pol o env).1) ∧
    (∀ d ∈ rest, d.DATE_CREATE ≤ d0.DATE_CREATE) ∧
    (∀ d ∈ rest, ∀ c ∈ (handleOrderUpdated mapper cfg pol o env).1,
      c.targetsDeal d.ID = false) := by
  refine ⟨⟨buildUpdateFields pol cfg o (mapper o).1 d0,
    update_mem_handleOrderUpdated mapper cfg pol o env d0 rest hres⟩, ?_, ?_⟩
  · intro d hd
    exact (List.pairwise_cons.mp hsorted).1 d hd
  · intro d hd c hc
    have hne : d0.ID ≠ d.ID := fun h => hids d hd h.symm
    simp only [handleOrderUpdated, hres, updateExisting] at hc
    have hsearch : ∀ c0 ∈ searchCallsOf o.id env, c0.targetsDeal d.ID = false := by
      intro c0 hc0
      unfold searchCallsOf at hc0
      split at hc0
      · rcases List.mem_cons.mp hc0 with h1 | h1
        · subst h1; rfl
        · rcases List.mem_cons.mp h1 with h2 | h2
          · subst h2; rfl
          · simp at h2
      · rcases List.mem_cons.mp hc0 with h1 | h1
        · subst h1; rfl
        · simp at h1
    rcases h : env.updateResp with e | u <;> rw [h] at hc
    · rcases List.mem_append.mp hc with hin | hin
      · exact hsearch c hin
      · rcases List.mem_cons.mp hin with h1 | h1
        · subst h1
          simp only [CrmCall.targetsDeal, decide_eq_false_iff_not]
          exact hne
        · simp at h1
    · rcases List.mem_append.mp hc with hin | hin
      · exact hsearch c hin
      · rcases List.mem_cons.mp hin with h1 | h1
        · subst h1
          simp only [CrmCall.targetsDeal, decide_eq_false_iff_not]
          exact hne
        · rcases List.mem_cons.mp h1 with h2 | h2
          · subst h2
            simp only [CrmCall.targetsDeal, decide_eq_false_iff_not]
            exact hne
          · simp at h2

/-- C3 (witness): three matching deals with distinct creation timestamps,
returned newest first; the statement at that input. -/
theorem C3_witness :
    (∃ f, CrmCall.update (exDeal "91" 30 "3003").ID f ∈
      (handleOrderUpdated exMapper exCfg exPol (exOrder "3003" (some "paid"))
        { listResp := .ok (some [exDeal "91" 30 "3003", exDeal "92" 20 "3003",
            exDeal "93" 10 "3003"])
          recentResp := .ok (some [])
          contactResp := .ok none
          addResp := .ok none
          newRowsResp := .ok ()
          updateResp := .ok ()
          rowsResp := .ok () }).1) ∧
    (∀ d ∈ [exDeal "92" 20 "3003", exDeal "93" 10 "3003"],
      d.DATE_CREATE ≤ (exDeal "91" 30 "3003").DATE_CREATE) ∧
    (∀ d ∈ [exDeal "92" 20 "3003", exDeal "93" 10 "3003"],
      ∀ c ∈ (handleOrderUpdated exMapper exCfg exPol (exOrder "3003" (some "paid"))
        { listResp := .ok (some [exDeal "91" 30 "3003", exDeal "92" 20 "3003",
            exDeal "93" 10 "3003"])
          recentResp := .ok (some [])
          contactResp := .ok none
          addResp := .ok none
          newRowsResp := .ok ()
          updateResp := .ok ()
          rowsResp := .ok () }).1, c.targetsDeal d.ID = false) :=
  C3_multiMatchMostRecent exMapper exCfg exPol (exOrder "3003" (some "paid"))
    { listResp := .ok (some [exDeal "91" 30 "3003", exDeal "92" 20 "3003",
        exDeal "93" 10 "3003"])
      recentResp := .ok (some [])
      contactResp := .ok none
      addResp := .ok none
      newRowsResp := .ok ()
      updateResp := .ok ()
      rowsResp := .ok () }
    (exDeal "91" 30 "3003") [exDeal "92" 20 "3003", exDeal "93" 10 "3003"]
    (by decide) (by decide) (by decide) (by decide)

/-- C4: for every `orders/updated` event that resolves to an existing deal
(with the field update succeeding), the handler issues the product-rows set
operation with the full row collection mapped from the current order by the
Deal Field Mapper — and for an order with zero line items that collection
is empty, so the deal ends with zero product rows rather than stale ones. -/
theorem C4_fullRowReplacement (cfg : BitrixConfig) (pol : StagePolicy)
    (o : Order) (env : UpdEnv) (d0 : DealRec) (rest : List DealRec)
    (hres : resolvedDeals o.id env = d0 :: rest)
    (hupd : env.updateResp = .ok ()) :
    CrmCall.setRows d0.ID (mapShopifyOrderToBitrixDeal o).2 ∈
      (handleOrderUpdated mapShopifyOrderToBitrixDeal cfg pol o env).1 ∧
    (o.line_items = [] → (mapShopifyOrderToBitrixDeal o).2 = []) := by
  refine ⟨setRows_mem_handleOrderUpdated mapShopifyOrderToBitrixDeal cfg pol o env
    d0 rest hres hupd, ?_⟩
  intro h
  simp [mapShopifyOrderToBitrixDeal, h]

/-- C4 (witness): the statement at a concrete zero-line-item order
resolving to deal 80. -/
theorem C4_witness :
    CrmCall.setRows (exDeal "80" 3 "4004").ID
      (mapShopifyOrderToBitrixDeal (exOrder "4004" (some "refunded"))).2 ∈
      (handleOrderUpdated mapShopifyOrderToBitrixDeal exCfg exPol
        (exOrder "4004" (some "refunded"))
        { listResp := .ok (some [exDeal "80" 3 "4004"])
          recentResp := .ok (some [])
          contactResp := .ok none
          addResp := .ok none
          newRowsResp := .ok ()
          updateResp := .ok ()
          rowsResp := .ok () }).1 ∧
    ((exOrder "4004" (some "refunded")).line_items = [] →
      (mapShopifyOrderToBitrixDeal (exOrder "4004" (some "refunded"))).2 = []) :=
  C4_fullRowReplacement exCfg exPol (exOrder "4004" (some "refunded"))
    { listResp := .ok (some [exDeal "80" 3 "4004"])
      recentResp := .ok (some [])
      contactResp := .ok none
      addResp := .ok none
      newRowsResp := .ok ()
      updateResp := .ok ()
      rowsResp := .ok () }
    (exDeal "80" 3 "4004") [] (by decide) rfl

/-- C10: for every `orders/updated` event that resolves to an existing
deal, whenever the Mapper produced null for the discount, tax and shipping
custom fields, the field-update mutation writes 0 (not null) for all three,
so unknown monetary data becomes indistinguishable from a factual zero. -/
theorem C10_nullCoercedToZero (mapper : DealMapper) (cfg : BitrixConfig)
    (pol : StagePolicy) (o : Order) (env : UpdEnv) (d0 : DealRec) (rest : List DealRec)
    (hres : resolvedDeals o.id env = d0 :: rest)
    (hd : (mapper o).1.UF_SHOPIFY_TOTAL_DISCOUNT = none)
    (ht : (mapper o).1.UF_SHOPIFY_TOTAL_TAX = none)
    (hs : (mapper o).1.UF_SHOPIFY_SHIPPING_PRICE = none) :
    ∃ f : UpdateFields,
      CrmCall.update d0.ID f ∈ (handleOrderUpdated mapper cfg pol o env).1 ∧
      f.UF_SHOPIFY_TOTAL_DISCOUNT = 0 ∧
      f.UF_SHOPIFY_TOTAL_TAX = 0 ∧
      f.UF_SHOPIFY_SHIPPING_PRICE = 0 := by
  refine ⟨buildUpdateFields pol cfg o (mapper o).1 d0,
    update_mem_handleOrderUpdated mapper cfg pol o env d0 rest hres, ?_, ?_, ?_⟩
  · simp [buildUpdateFields, hd]
  · simp [buildUpdateFields, ht]
  · simp [buildUpdateFields, hs]

/-- C10 (witness): the statement at a concrete order whose mapper output
has null discount, tax and shipping. -/
theorem C10_witness :
    ∃ f : UpdateFields,
      CrmCall.update (exDeal "60" 7 "1010").ID f ∈
        (handleOrderUpdated exMapper exCfg exPol (exOrder "1010" (some "paid"))
          { listResp := .ok (some [exDeal "60" 7 "1010"])
            recentResp := .ok (some [])
            contactResp := .ok none
            addResp := .ok none
            newRowsResp := .ok ()
            updateResp := .ok ()
            rowsResp := .ok () }).1 ∧
      f.UF_SHOPIFY_TOTAL_DISCOUNT = 0 ∧
      f.UF_SHOPIFY_TOTAL_TAX = 0 ∧
      f.UF_SHOPIFY_SHIPPING_PRICE = 0 :=
  C10_nullCoercedToZero exMapper exCfg exPol (exOrder "1010" (some "paid"))
    { listResp := .ok (some [exDeal "60" 7 "1010"])
      recentResp := .ok (some [])
      contactResp := .ok none
      addResp := .ok none
      newRowsResp := .ok ()
      updateResp := .ok ()
      rowsResp := .ok () }
    (exDeal "60" 7 "1010") [] (by decide) rfl rfl rfl

/-- Environment for the C5 counterexample: the `orders/updated` lookup finds
nothing, the deal create succeeds with id 501, and the product-rows set on
the newly created deal throws. -/
def C5env : UpdEnv :=
  { listResp := .ok (some [])
    recentResp := .ok (some [])
    contactResp := .ok none
    addResp := .ok (some "501")
    newRowsResp := .error ()
    updateResp := .ok ()
    rowsResp := .ok () }

/-- C5 (counterexample): in the create branch of the `orders/updated` path,
the product-rows set call on the newly created deal is issued and its
exception propagates out of `handleOrderUpdated` — refuting the claim that
a product-rows failure is always caught and never propagates out of the
reconciler entry point. -/
theorem C5_counterexample :
    (handleOrderUpdated exMapper exCfg exPol (exOrder "5005" (some "paid")) C5env).2 =
      Except.error () ∧
    CrmCall.setRows "501" [exRow] ∈
      (handleOrderUpdated exMapper exCfg exPol (exOrder "5005" (some "paid")) C5env).1 := by
  refine ⟨rfl, by decide⟩

/-- C5 (amended): an exception raised by the contact-upsert call never
propagates, and an exception raised by the product-rows set call is caught
in the `orders/create` path and in the existing-deal branch of the
`orders/updated` path — in both, the outcome is the success result whatever
the contact and rows responses are; however, in the create branch of the
`orders/updated` path a failure to set rows on the newly created deal does
propagate (the created deal is still not rolled back). -/
theorem C5_amended (mapper : DealMapper) (cfg : BitrixConfig) (pol : StagePolicy)
    (o : Order) (cenv : CreateEnv) (uenv : UpdEnv)
    (r : Option (List DealRec)) (newId : String) (d0 : DealRec) (rest : List DealRec)
    (hc1 : cenv.listResp = .ok r)
    (hc2 : (r.getD []).find?
      (fun d => jsStringOf d.UF_SHOPIFY_ORDER_ID = o.id) = none)
    (hc3 : cenv.addResp = .ok (some newId))
    (hu1 : resolvedDeals o.id uenv = d0 :: rest)
    (hu2 : uenv.updateResp = .ok ()) :
    (handleOrderCreated mapper o cenv).2 = Except.ok newId ∧
    (handleOrderUpdated mapper cfg pol o uenv).2 = Except.ok d0.ID := by
  constructor
  · simp only [handleOrderCreated, hc1, hc2, hc3]
    split
    · rfl
    · rfl
  · simp only [handleOrderUpdated, hu1, updateExisting, hu2]

/-- C5 (witness): the amended statement at concrete inputs whose contact
upsert and product-rows calls both throw; the outcomes are still the
success results. -/
theorem C5_witness :
    (handleOrderCreated exMapper (exOrder "5006" (some "paid"))
      { listResp := .ok (some [])
        contactResp := .error ()
        addResp := .ok (some "502")
        rowsResp := .error () }).2 = Except.ok "502" ∧
    (handleOrderUpdated exMapper exCfg exPol (exOrder "5006" (some "paid"))
      { listResp := .ok (some [exDeal "61" 9 "5006"])
        recentResp := .ok (some [])
        contactResp := .error ()
        addResp := .ok none
        newRowsResp := .ok ()
        updateResp := .ok ()
        rowsResp := .error () }).2 = Except.ok (exDeal "61" 9 "5006").ID :=
  C5_amended exMapper exCfg exPol (exOrder "5006" (some "paid"))
    { listResp := .ok (some [])
      contactResp := .error ()
      addResp := .ok (some "502")
      rowsResp := .error () }
    { listResp := .ok (some [exDeal "61" 9 "5006"])
      recentResp := .ok (some [])
      contactResp := .error ()
      addResp := .ok none
      newRowsResp := .ok ()
      updateResp := .ok ()
      rowsResp := .error () }
    (some []) "502" (exDeal "61" 9 "5006") []
    rfl (by decide) rfl (by decide) rfl

/-- C6: for every create-deal attempt — in the `orders/create` path and in
the create branch of the `orders/updated` path — a create response carrying
a falsy/empty result (no assigned identifier) makes the operation raise,
and the error propagates to the webhook handler as a 500 hard failure of
the whole request. -/
theorem C6_createHardFailure (mapper : DealMapper) (cfg : BitrixConfig)
    (pol : StagePolicy) (o : Order) (cenv : CreateEnv) (uenv : UpdEnv)
    (r : Option (List DealRec))
    (hc1 : cenv.listResp = .ok r)
    (hc2 : (r.getD []).find?
      (fun d => jsStringOf d.UF_SHOPIFY_ORDER_ID = o.id) = none)
    (hc3 : cenv.addResp = .ok none)
    (hu1 : resolvedDeals o.id uenv = [])
    (hu2 : uenv.addResp = .ok none) :
    (handleOrderCreated mapper o cenv).2 = Except.error () ∧
    (handleOrderUpdated mapper cfg pol o uenv).2 = Except.error () ∧
    (handler mapper cfg pol
      { method := "POST", topic := some "orders/create", body := o }
      { createEnv := cenv, updEnv := uenv }).1.status = 500 ∧
    (handler mapper cfg pol
      { method := "POST", topic := some "orders/updated", body := o }
      { createEnv := cenv, updEnv := uenv }).1.status = 500 := by
  have hcreate : (handleOrderCreated mapper o cenv).2 = Except.error () := by
    simp only [handleOrderCreated, hc1, hc2, hc3]
  have hupdate : (handleOrderUpdated mapper cfg pol o uenv).2 = Except.error () := by
    simp only [handleOrderUpdated, hu1, createViaUpdate, hu2]
  refine ⟨hcreate, hupdate, ?_, ?_⟩
  · simp only [handler]
    rw [if_neg (by decide)]
    simp [respOf, hcreate]
  · simp only [handler]
    rw [if_neg (by decide)]
    simp [respOf, hupdate]

/-- C6 (witness): the statement at a concrete order whose create response
carries no identifier, in both paths. -/
theorem C6_witness :
    (handleOrderCreated exMapper (exOrder "6006" (some "paid"))
      { listResp := .ok (some [])
        contactResp := .ok none
        addResp := .ok none
        rowsResp := .ok () }).2 = Except.error () ∧
    (handleOrderUpdated exMapper exCfg exPol (exOrder "6006" (some "paid"))
      { listResp := .ok (some [])
        recentResp := .ok (some [])
        contactResp := .ok none
        addResp := .ok none
        newRowsResp := .ok ()
        updateResp := .ok ()
        rowsResp := .ok () }).2 = Except.error () ∧
    (handler exMapper exCfg exPol
      { method := "POST", topic := some "orders/create"
        body := exOrder "6006" (some "paid") }
      { createEnv :=
          { listResp := .ok (some [])
            contactResp := .ok none
            addResp := .ok none
            rowsResp := .ok () }
        updEnv :=
          { listResp := .ok (some [])
            recentResp := .ok (some [])
            contactResp := .ok none
            addResp := .ok none
            newRowsResp := .ok ()
            updateResp := .ok ()
            rowsResp := .ok () } }).1.status = 500 ∧
    (handler exMapper exCfg exPol
      { method := "POST", topic := some "orders/updated"
        body := exOrder "6006" (some "paid") }
      { createEnv :=
          { listResp := .ok (some [])
            contactResp := .ok none
            addResp := .ok none
            rowsResp := .ok () }
        updEnv :=
          { listResp := .ok (some [])
            recentResp := .ok (some [])
            contactResp := .ok none
            addResp := .ok none
            newRowsResp := .ok ()
            updateResp := .ok ()
            rowsResp := .ok () } }).1.status = 500 :=
  C6_createHardFailure exMapper exCfg exPol (exOrder "6006" (some "paid"))
    { listResp := .ok (some [])
      contactResp := .ok none
      addResp := .ok none
      rowsResp := .ok () }
    { listResp := .ok (some [])
      recentResp := .ok (some [])
      contactResp := .ok none
      addResp := .ok none
      newRowsResp := .ok ()
      updateResp := .ok ()
      rowsResp := .ok () }
    (some []) rfl rfl rfl (by decide) rfl

/-- C7: for every order, (i) with a present non-empty discount-code list
the mapped total discount is the sum of the parsed per-code amounts, an
exact-zero sum normalized to null; (ii) with an absent or empty list the
mapper falls back to the aggregate `total_discounts` field (parsed, with a
falsy field giving null); (iii) in particular an order with an empty
discount-code list and a positive aggregate discount maps to that
aggregate value, which is neither null nor zero. -/
theorem C7_discountMapping (o : Order) :
    (∀ codes, o.discount_codes = some codes → codes ≠ [] →
      transformToBitrix_totalDiscount o =
        (if codes.foldl (fun sum c => sum + ((parseNumber c.amount).getD 0)) (0 : ℚ) = 0
         then none
         else some (codes.foldl
           (fun sum c => sum + ((parseNumber c.amount).getD 0)) (0 : ℚ)))) ∧
    ((o.discount_codes = none ∨ o.discount_codes = some []) →
      transformToBitrix_totalDiscount o = parseNumber o.total_discounts) ∧
    (∀ s q, (o.discount_codes = none ∨ o.discount_codes = some []) →
      o.total_discounts = some s → parseNumber (some s) = some q → 0 < q →
      transformToBitrix_totalDiscount o = some q ∧ q ≠ 0) := by
  have fallbackEq :
      (if truthyStr o.total_discounts then parseNumber o.total_discounts else none)
        = parseNumber o.total_discounts := by
    rcases htd : o.total_discounts with _ | s
    · simp [truthyStr, parseNumber]
    · by_cases hs : s = ""
      · subst hs
        simp [truthyStr, parseNumber]
      · simp [truthyStr, hs]
  have part2 : (o.discount_codes = none ∨ o.discount_codes = some []) →
      transformToBitrix_totalDiscount o = parseNumber o.total_discounts := by
    intro h
    rcases h with h | h
    · simp only [transformToBitrix_totalDiscount, h]
      exact fallbackEq
    · simp only [transformToBitrix_totalDiscount, h]
      rw [if_neg (by simp)]
      exact fallbackEq
  refine ⟨?_, part2, ?_⟩
  · intro codes hcodes hne
    simp only [transformToBitrix_totalDiscount, hcodes]
    rw [if_pos (List.length_pos.mpr hne)]
  · intro s q h hts hpq hqpos
    refine ⟨?_, ne_of_gt hqpos⟩
    rw [part2 h, hts, hpq]

/-- C7 (witness): an order with an empty discount-code list and aggregate
discount `"12.5"` maps to 25/2, not null or zero. -/
theorem C7_witness :
    transformToBitrix_totalDiscount
      { exOrder "7007" (some "paid") with
        discount_codes := some []
        total_discounts := some "12.5" } = some (25 / 2 : ℚ) ∧
    (25 / 2 : ℚ) ≠ 0 :=
  C7_discountMapping
    { exOrder "7007" (some "paid") with
      discount_codes := some []
      total_discounts := some "12.5" }
    |>.2.2 "12.5" (25 / 2 : ℚ) (Or.inr rfl) rfl
      (by show some ((1 : ℚ) * ((12 : ℚ) + (5 : ℚ) / (10 : ℚ) ^ (1 : ℕ))) =
            some (25 / 2 : ℚ)
          norm_num)
      (by norm_num)

/-- Helper: `getValue(x) || ''` coincides with defaulting the raw field to
the empty string. -/
lemma getValue_getD (x : Option String) : (getValue x).getD "" = x.getD "" := by
  rcases x with _ | s
  · rfl
  · by_cases hs : s = ""
    · subst hs
      rfl
    · simp [getValue, hs]

/-- C8: for every order, the mapped customer name is the whitespace-trimmed
space-join of first and last name from the customer object, falling back
(when the customer object is absent) to the billing-address first and last
name, falling back to null, with an empty resulting string normalized to
null. -/
theorem C8_customerNameMapping (o : Order) :
    transformToBitrix_customerName o =
      match o.customer with
      | some c => specDisplayName c.first_name c.last_name
      | none =>
        match o.billing_address with
        | some b => specDisplayName b.first_name b.last_name
        | none => none := by
  rcases hc : o.customer with _ | c
  · rcases hb : o.billing_address with _ | b
    · simp [transformToBitrix_customerName, hc, hb]
    · simp [transformToBitrix_customerName, specDisplayName, hc, hb, getValue_getD]
  · simp [transformToBitrix_customerName, specDisplayName, hc, getValue_getD]

/-- A benign CRM environment for the method-rejection scenario. -/
def C9wenv : WebhookEnv :=
  { createEnv :=
      { listResp := .ok (some [])
        contactResp := .ok none
        addResp := .ok (some "1")
        rowsResp := .ok () }
    updEnv :=
      { listResp := .ok (some [])
        recentResp := .ok (some [])
        contactResp := .ok none
        addResp := .ok (some "1")
        newRowsResp := .ok ()
        updateResp := .ok ()
        rowsResp := .ok () } }

/-- C9 (counterexample): a GET request is rejected with client-error status
405 and no CRM call, but the response carries the plain-text body
`Method not allowed` (`res.end('Method not allowed')`), not an empty
body — refuting the "no body" part of the claim. -/
theorem C9_counterexample :
    (handler exMapper exCfg exPol
      { method := "GET", topic := some "orders/create", body := exOrder "9009" none }
      C9wenv).1 =
      { status := 405, body := HttpBody.text "Method not allowed" } ∧
    (handler exMapper exCfg exPol
      { method := "GET", topic := some "orders/create", body := exOrder "9009" none }
      C9wenv).1.body ≠ HttpBody.empty ∧
    (handler exMapper exCfg exPol
      { method := "GET", topic := some "orders/create", body := exOrder "9009" none }
      C9wenv).2 = [] := by
  refine ⟨rfl, by decide, rfl⟩

/-- C9 (amended): for every inbound request whose method is not POST, the
webhook handler responds with client-error status 405 and the plain-text
body `Method not allowed`, and attempts no CRM call and no reconciliation
before returning. -/
theorem C9_methodRejection (mapper : DealMapper) (cfg : BitrixConfig)
    (pol : StagePolicy) (req : HttpRequest) (env : WebhookEnv)
    (hm : req.method ≠ "POST") :
    handler mapper cfg pol req env =
      ({ status := 405, body := HttpBody.text "Method not allowed" }, []) := by
  simp only [handler]
  rw [if_pos hm]

/-- C9 (witness): the amended statement at a concrete GET request. -/
theorem C9_witness :
    handler exMapper exCfg exPol
      { method := "GET", topic := none, body := exOrder "9010" none } C9wenv =
      ({ status := 405, body := HttpBody.text "Method not allowed" }, []) :=
  C9_methodRejection exMapper exCfg exPol
    { method := "GET", topic := none, body := exOrder "9010" none } C9wenv (by decide)

end ShopifyBitrix
